import Mathlib

/-!
Shallow embedding of the data-loading core of `src/web_app.py`
(CL-RAM Thesis Visualization, Flask web interface).

The embedded code is:
  * `parse_text_log` (web_app.py lines 34-69): the bespoke text-log
    parser, modelled here over `List Char` (the Python `str` the
    function reads from the file);
  * the data-loading dispatch of `generate_visualizations`
    (web_app.py lines 85-99): extension-based strategy selection and
    the JSON / text branches.

Python string primitives (`str.split`, `str.strip`, `str.lower`,
substring containment) are given explicit executable definitions over
`List Char`. `float(...)` is modelled by the decidable predicate
`isPyFloat`, the grammar Python's float constructor accepts for ASCII
input; the stored float value is represented by its accepted literal,
since no property below depends on numeric decoding, only on whether
parsing succeeds and the field is present.
-/

set_option autoImplicit false

namespace WebApp

/-- Character list of a string literal; contents are modelled as `List Char`. -/
def lc (s : String) : List Char := s.data

/-- Whitespace characters stripped by Python `str.strip()` (ASCII part). -/
def isWs (c : Char) : Bool :=
  c = ' ' || c = '\t' || c = '\n' || c = '\r' || c = '\x0b' || c = '\x0c'

/-- Python `s.strip()`: drop leading and trailing whitespace. -/
def pyStrip (s : List Char) : List Char :=
  ((s.dropWhile isWs).reverse.dropWhile isWs).reverse

/-- Python `s.lower()` (ASCII). -/
def pyLower (s : List Char) : List Char :=
  s.map Char.toLower

/-- Prepend a character to the first piece of a split result. -/
def consHead (c : Char) : List (List Char) → List (List Char)
  | [] => [[c]]
  | p :: ps => (c :: p) :: ps

/-- Python `s.split(sep)` for a one-character separator `sep`
(web_app.py line 46: `block.split('\n')`). -/
def splitOnChar (sep : Char) : List Char → List (List Char)
  | [] => [[]]
  | c :: rest =>
      if c = sep then [] :: splitOnChar sep rest
      else consHead c (splitOnChar sep rest)

/-- Python `content.split('\n\n')` (web_app.py line 41): split at each
non-overlapping occurrence, left to right, of two consecutive newline
characters. -/
def splitBlocks : List Char → List (List Char)
  | [] => [[]]
  | [c] => [[c]]
  | c :: d :: rest =>
      if c = '\n' ∧ d = '\n' then [] :: splitBlocks rest
      else consHead c (splitBlocks (d :: rest))

/-- Python `pat in s`: `pat` occurs in `s` as a contiguous subsequence. -/
def containsSeq (pat : List Char) : List Char → Bool
  | [] => pat.isEmpty
  | c :: rest => pat.isPrefixOf (c :: rest) || containsSeq pat rest

/-- Python `line.split(':', 1)[1]`: everything after the line's first
colon (further colons are literal).  The branches of `parse_text_log`
only reach this when the line contains a colon; on a colon-free line
the Python expression would raise `IndexError` and this model returns
`[]`, a case none of the theorems below touch. -/
def afterFirstColon : List Char → List Char
  | [] => []
  | c :: rest => if c = ':' then rest else afterFirstColon rest

/-- Python float-literal `digitpart`: digits optionally separated by
single underscores (`digit (["_"] digit)*`). -/
def digitPart (s : List Char) : Bool :=
  !s.isEmpty &&
  (s.head?.map Char.isDigit).getD false &&
  (s.getLast?.map Char.isDigit).getD false &&
  s.all (fun c => c.isDigit || c = '_') &&
  !containsSeq ['_', '_'] s

/-- Split a float literal at the first exponent marker `e`/`E`. -/
def splitAtExp : List Char → List Char × Option (List Char)
  | [] => ([], none)
  | c :: rest =>
      if c = 'e' || c = 'E' then ([], some rest)
      else
        let m := splitAtExp rest
        (c :: m.1, m.2)

/-- Drop one leading sign character, if any. -/
def stripOneSign : List Char → List Char
  | '+' :: rest => rest
  | '-' :: rest => rest
  | s => s

/-- Mantissa of a Python float literal: `digitpart`, `digitpart "."
[digitpart]`, or `[digitpart] "." digitpart`. -/
def mantissa (s : List Char) : Bool :=
  match splitOnChar '.' s with
  | [w] => digitPart w
  | [i, f] =>
      if i.isEmpty then digitPart f
      else if f.isEmpty then digitPart i
      else digitPart i && digitPart f
  | _ => false

/-- Numeric (non-inf, non-nan) Python float literal without sign:
mantissa with an optional signed exponent. -/
def numericFloat (s : List Char) : Bool :=
  match splitAtExp s with
  | (m, none) => mantissa m
  | (m, some e) => mantissa m && digitPart (stripOneSign e)

/-- Python `float(s)` succeeds: optional surrounding whitespace, one
optional sign, then `inf`/`infinity`/`nan` (case-insensitive) or a
numeric literal. -/
def isPyFloat (s : List Char) : Bool :=
  let core := stripOneSign (pyStrip s)
  pyLower core == lc "inf" || pyLower core == lc "infinity" ||
  pyLower core == lc "nan" || numericFloat core

/-- The per-block dictionary `test` built by `parse_text_log`
(web_app.py lines 45-61).  A field is `some v` exactly when the Python
dict has the corresponding key; `temperature` holds the accepted float
literal, `success` holds the stored `1`/`0`. -/
structure TestRecord where
  model : Option (List Char) := none
  category : Option (List Char) := none
  language : Option (List Char) := none
  temperature : Option (List Char) := none
  success : Option Nat := none
deriving Repr, DecidableEq

/-- The empty dictionary `test = {}` of web_app.py line 45. -/
def initTest : TestRecord := ⟨none, none, none, none, none⟩

/-- Line 48: `'Model:' in line or 'model:' in line`. -/
def mentionsModel (line : List Char) : Bool :=
  containsSeq (lc "Model:") line || containsSeq (lc "model:") line

/-- Line 50: `'Category:' in line or 'category:' in line`. -/
def mentionsCategory (line : List Char) : Bool :=
  containsSeq (lc "Category:") line || containsSeq (lc "category:") line

/-- Line 52: `'Language:' in line or 'language:' in line`. -/
def mentionsLanguage (line : List Char) : Bool :=
  containsSeq (lc "Language:") line || containsSeq (lc "language:") line

/-- Line 54: `'Temperature:' in line or 'temperature:' in line`. -/
def mentionsTemperature (line : List Char) : Bool :=
  containsSeq (lc "Temperature:") line || containsSeq (lc "temperature:") line

/-- Line 59: `'Success:' in line or 'success:' in line`. -/
def mentionsSuccess (line : List Char) : Bool :=
  containsSeq (lc "Success:") line || containsSeq (lc "success:") line

/-- `line.split(':', 1)[1].strip()`: the field value of a matched line. -/
def fieldValue (line : List Char) : List Char :=
  pyStrip (afterFirstColon line)

/-- Line 61: membership in the truthy set `['true', '1', 'yes', 'success']`. -/
def isTruthy (v : List Char) : Bool :=
  v == lc "true" || v == lc "1" || v == lc "yes" || v == lc "success"

/-- One iteration of the loop of web_app.py lines 46-61: strip the
line, then run the if/elif chain, updating the record (Python dict)
accordingly.  The `Temperature` branch assigns only when `float(...)`
succeeds (the `except: pass` of lines 57-58). -/
def parseLine (test : TestRecord) (rawLine : List Char) : TestRecord :=
  let line := pyStrip rawLine
  if mentionsModel line then
    { test with model := some (fieldValue line) }
  else if mentionsCategory line then
    { test with category := some (fieldValue line) }
  else if mentionsLanguage line then
    { test with language := some (fieldValue line) }
  else if mentionsTemperature line then
    if isPyFloat (fieldValue line) then
      { test with temperature := some (fieldValue line) }
    else test
  else if mentionsSuccess line then
    { test with success := some (if isTruthy (pyLower (fieldValue line)) then 1 else 0) }
  else test

/-- Web_app.py lines 45-61: fold the lines of one block over the empty
dictionary. -/
def parseBlock (block : List Char) : TestRecord :=
  (splitOnChar '\n' block).foldl parseLine initTest

/-- Web_app.py line 41:
`[b.strip() for b in content.split('\n\n') if b.strip()]`. -/
def blocksOf (content : List Char) : List (List Char) :=
  ((splitBlocks content).map pyStrip).filter (fun b => !b.isEmpty)

/-- The raw records: one `test` dictionary per block, before the
required-key check of line 63. -/
def rawRecords (content : List Char) : List TestRecord :=
  (blocksOf content).map parseBlock

/-- Line 63: `'model' in test and 'category' in test` (key presence). -/
def hasRequiredKeys (t : TestRecord) : Bool :=
  t.model.isSome && t.category.isSome

/-- The `data` list of web_app.py lines 43-64: records whose blocks
assigned both required keys, in input order. -/
def keptRecords (content : List Char) : List TestRecord :=
  (rawRecords content).filter hasRequiredKeys

/-- Web_app.py lines 34-69, content-level behaviour:
`return pd.DataFrame(data) if data else None`.  The DataFrame is
modelled by its ordered record list. -/
def parse_text_log (content : List Char) : Option (List TestRecord) :=
  if (keptRecords content).isEmpty then none else some (keptRecords content)

/-- The canonical table a run works with: the parsed table, or empty
when the parser returned `None`. -/
def canonicalTable (content : List Char) : List TestRecord :=
  (parse_text_log content).getD []

/-- The `.txt` branch of `generate_visualizations` (web_app.py lines
93-97): a `None` parse raises `ValueError("Failed to parse text file")`,
which the surrounding handler surfaces as the run's terminal error. -/
def loadTextFile (content : List Char) : Except String (List TestRecord) :=
  match parse_text_log content with
  | none => Except.error "Failed to parse text file"
  | some df => Except.ok df

/-- Python `s.lower()` on a whole string value (ASCII), used by the
suffix comparison `filepath.suffix.lower()`. -/
def pyLowerStr (s : String) : String :=
  String.mk (pyLower s.data)

/-- The three parsing strategies of web_app.py lines 87-97. -/
inductive ParseStrategy where
  | csv
  | json
  | textLog
deriving Repr, DecidableEq

/-- The extension dispatch of `generate_visualizations` (web_app.py
lines 87-99): `filepath.suffix.lower()` compared against `.csv`,
`.json`, `.txt`; any other suffix raises
`ValueError(f"Unsupported file type: {filepath.suffix}")`. -/
def selectStrategy (suffix : String) : Except String ParseStrategy :=
  if pyLowerStr suffix = ".csv" then Except.ok ParseStrategy.csv
  else if pyLowerStr suffix = ".json" then Except.ok ParseStrategy.json
  else if pyLowerStr suffix = ".txt" then Except.ok ParseStrategy.textLog
  else Except.error ("Unsupported file type: " ++ suffix)

/-- JSON values as produced by `json.load` (web_app.py line 91).
Numeric payloads are abstracted to `Int`: the JSON branch inspects only
the shape of the value, never numeric content. -/
inductive JValue where
  | jNull
  | jBool (b : Bool)
  | jNum (n : Int)
  | jStr (s : List Char)
  | jArr (elems : List JValue)
  | jObj (fields : List (List Char × JValue))

/-- Whether a JSON value is a sequence (`isinstance(data, list)`). -/
def isJArr : JValue → Bool
  | JValue.jArr _ => true
  | _ => false

/-- Web_app.py line 92: `data if isinstance(data, list) else [data]` —
the raw-record list handed to `pd.DataFrame`. -/
def jsonToRecords (v : JValue) : List JValue :=
  match v with
  | JValue.jArr xs => xs
  | other => [other]

/-! ## Helper lemmas about the embedded string primitives -/

/-- Unfolding equation for `containsSeq` on a cons cell. -/
theorem containsSeq_cons_eq (pat : List Char) (c : Char) (rest : List Char) :
    containsSeq pat (c :: rest) = (pat.isPrefixOf (c :: rest) || containsSeq pat rest) :=
  rfl

/-- A failed containment splits into a failed anchored match and a
failed containment in the tail. -/
theorem containsSeq_cons_split {pat : List Char} {c : Char} {rest : List Char}
    (h : containsSeq pat (c :: rest) = false) :
    pat.isPrefixOf (c :: rest) = false ∧ containsSeq pat rest = false := by
  rw [containsSeq_cons_eq] at h
  exact Bool.or_eq_false_iff.mp h

/-- If the two-newline pattern does not match at the head of
`c :: d :: rest`, then `c` and `d` are not both newlines. -/
theorem nlnl_head_false {c d : Char} {rest : List Char}
    (hpre : (['\n', '\n'] : List Char).isPrefixOf (c :: d :: rest) = false) :
    ¬(c = '\n' ∧ d = '\n') := by
  rintro ⟨hc, hd⟩
  subst hc
  subst hd
  simp [List.isPrefixOf] at hpre

/-- A string with no occurrence of two consecutive newlines is a
single piece of `splitBlocks`. -/
theorem splitBlocks_no_sep : ∀ (s : List Char),
    containsSeq ['\n', '\n'] s = false → splitBlocks s = [s]
  | [], _ => rfl
  | [_], _ => rfl
  | c :: d :: ds, h => by
      obtain ⟨hpre, htail⟩ := containsSeq_cons_split h
      have hcond := nlnl_head_false hpre
      simp only [splitBlocks]
      rw [if_neg hcond, splitBlocks_no_sep (d :: ds) htail]
      rfl

/-- Splitting at an explicit two-newline separator: the left piece
must not contain the separator and must not end in a newline (else the
separator would be found earlier). -/
theorem splitBlocks_append : ∀ (b1 rest : List Char),
    containsSeq ['\n', '\n'] b1 = false →
    b1.getLast? ≠ some '\n' →
    splitBlocks (b1 ++ '\n' :: '\n' :: rest) = b1 :: splitBlocks rest
  | [], rest, _, _ => by
      simp [splitBlocks]
  | [c], rest, _, h2 => by
      have hc : ¬(c = '\n') := by
        intro h
        exact h2 (by simp [h])
      simp [splitBlocks, hc, consHead]
  | c :: d :: ds, rest, h1, h2 => by
      obtain ⟨hpre, htail⟩ := containsSeq_cons_split h1
      have hlast : (d :: ds).getLast? ≠ some '\n' := by
        rwa [List.getLast?_cons_cons] at h2
      have hr := splitBlocks_append (d :: ds) rest htail hlast
      rw [List.cons_append] at hr
      rw [List.cons_append, List.cons_append]
      simp only [splitBlocks]
      rw [if_neg (nlnl_head_false hpre), hr]
      rfl

/-! ## Claim C1 — required-field gate of the normalizer -/

/-- Claim C1, counterexample: the block `Model:` / `Category: x`
assigns `model` the empty string (empty after trimming), yet the
record appears in the canonical table — the code checks key presence
(line 63), not non-emptiness of the trimmed value. -/
theorem claim_C1_cex :
    parse_text_log (lc "Model:\nCategory: x") =
      some [{ initTest with model := some [], category := some (lc "x") }] := by
  decide

/-- Claim C1 (amended): a record appears in the canonical table if and
only if it is a raw record of the input whose block assigned both the
`model` and `category` keys — even when the assigned, trimmed value is
empty; records missing either key are dropped without error. -/
theorem claim_C1_amended (content : List Char) (r : TestRecord) :
    r ∈ canonicalTable content ↔
      r ∈ rawRecords content ∧ hasRequiredKeys r = true := by
  have h : canonicalTable content = keptRecords content := by
    unfold canonicalTable parse_text_log
    rcases hk : keptRecords content with _ | ⟨a, as⟩ <;> simp [hk]
  rw [h]
  simp [keptRecords, List.mem_filter]

/-! ## Claim C2 — label matching and value extraction -/

/-- Claim C2, counterexample: `MODEL: v` is a casing of the recognized
label `Model:` followed by a colon, yet no field is assigned — the code
(line 48) matches only the exact substrings `Model:` and `model:`. -/
theorem claim_C2_cex :
    containsSeq (lc "model:") (pyLower (pyStrip (lc "MODEL: v"))) = true ∧
    parseLine initTest (lc "MODEL: v") = initTest ∧
    parseLine initTest (lc "MoDeL: v") = initTest := by
  refine ⟨by decide, by decide, by decide⟩

/-- Claim C2 (amended): field-label matching recognizes exactly two
casings of each label — capitalized (`Model:`) and lowercase
(`model:`) — by substring containment in the stripped line; a line
containing such a label (and no higher-precedence label) assigns that
field, with the value taken as everything after the line's first
colon, trimmed of surrounding whitespace (for `Temperature` only when
that value parses as a float; for `Success` mapped through the truthy
set). -/
theorem claim_C2_amended (t : TestRecord) (line : List Char) :
    (mentionsModel (pyStrip line) = true →
      (parseLine t line).model = some (pyStrip (afterFirstColon (pyStrip line)))) ∧
    (mentionsModel (pyStrip line) = false → mentionsCategory (pyStrip line) = true →
      (parseLine t line).category = some (pyStrip (afterFirstColon (pyStrip line)))) ∧
    (mentionsModel (pyStrip line) = false → mentionsCategory (pyStrip line) = false →
      mentionsLanguage (pyStrip line) = true →
      (parseLine t line).language = some (pyStrip (afterFirstColon (pyStrip line)))) ∧
    (mentionsModel (pyStrip line) = false → mentionsCategory (pyStrip line) = false →
      mentionsLanguage (pyStrip line) = false → mentionsTemperature (pyStrip line) = true →
      isPyFloat (pyStrip (afterFirstColon (pyStrip line))) = true →
      (parseLine t line).temperature = some (pyStrip (afterFirstColon (pyStrip line)))) ∧
    (mentionsModel (pyStrip line) = false → mentionsCategory (pyStrip line) = false →
      mentionsLanguage (pyStrip line) = false → mentionsTemperature (pyStrip line) = false →
      mentionsSuccess (pyStrip line) = true →
      (parseLine t line).success =
        some (if isTruthy (pyLower (pyStrip (afterFirstColon (pyStrip line)))) then 1 else 0)) := by
  refine ⟨?_, ?_, ?_, ?_, ?_⟩ <;> intros <;> simp [parseLine, fieldValue, *]

/-- Claim C2, witness: concrete lines exercising the model and
category clauses of the amended statement. -/
theorem claim_C2_witness :
    (parseLine initTest (lc "Model: m")).model =
      some (pyStrip (afterFirstColon (pyStrip (lc "Model: m")))) ∧
    (parseLine initTest (lc "category: c")).category =
      some (pyStrip (afterFirstColon (pyStrip (lc "category: c")))) :=
  ⟨(claim_C2_amended initTest (lc "Model: m")).1 (by decide),
   (claim_C2_amended initTest (lc "category: c")).2.1 (by decide) (by decide)⟩

/-! ## Claim C3 — extension dispatch -/

/-- Claim C3: the entry point selects the CSV, JSON, or text-log
strategy for the extensions `.csv`, `.json`, `.txt` (compared
case-insensitively), and any other extension fails with the
unsupported-file-type error, whose message carries the offending
extension verbatim. -/
theorem claim_C3 (suffix : String) :
    (pyLowerStr suffix = ".csv" → selectStrategy suffix = Except.ok ParseStrategy.csv) ∧
    (pyLowerStr suffix = ".json" → selectStrategy suffix = Except.ok ParseStrategy.json) ∧
    (pyLowerStr suffix = ".txt" → selectStrategy suffix = Except.ok ParseStrategy.textLog) ∧
    (pyLowerStr suffix ≠ ".csv" → pyLowerStr suffix ≠ ".json" → pyLowerStr suffix ≠ ".txt" →
      selectStrategy suffix = Except.error ("Unsupported file type: " ++ suffix) ∧
      ∃ a : String, "Unsupported file type: " ++ suffix = a ++ suffix) := by
  refine ⟨?_, ?_, ?_, ?_⟩
  · intro h
    simp [selectStrategy, h]
  · intro h
    by_cases hc : pyLowerStr suffix = ".csv"
    · rw [hc] at h
      exact absurd h (by decide)
    · simp [selectStrategy, h, hc]
  · intro h
    by_cases hc : pyLowerStr suffix = ".csv"
    · rw [hc] at h
      exact absurd h (by decide)
    · by_cases hj : pyLowerStr suffix = ".json"
      · rw [hj] at h
        exact absurd h (by decide)
      · simp [selectStrategy, h, hc, hj]
  · intro h1 h2 h3
    refine ⟨by simp [selectStrategy, h1, h2, h3], ⟨"Unsupported file type: ", rfl⟩⟩

/-- Claim C3, witness: the uppercase `.CSV` selects the CSV strategy,
and `.yaml` fails with a message carrying `.yaml`. -/
theorem claim_C3_witness :
    selectStrategy ".CSV" = Except.ok ParseStrategy.csv ∧
    (selectStrategy ".yaml" = Except.error ("Unsupported file type: " ++ ".yaml") ∧
      ∃ a : String, "Unsupported file type: " ++ ".yaml" = a ++ ".yaml") :=
  ⟨(claim_C3 ".CSV").1 (by decide),
   (claim_C3 ".yaml").2.2.2 (by decide) (by decide) (by decide)⟩

/-! ## Claim C4 — determinism -/

/-- Claim C4: the parsing-and-normalization stage is deterministic —
identical input bytes produce identical canonical tables, and hence
any aggregate (a pure function of the parser's output) is identical
across the two runs. -/
theorem claim_C4 (c1 c2 : List Char) (h : c1 = c2) :
    parse_text_log c1 = parse_text_log c2 ∧
    ∀ (α : Type) (agg : Option (List TestRecord) → α),
      agg (parse_text_log c1) = agg (parse_text_log c2) := by
  subst h
  exact ⟨rfl, fun _ _ => rfl⟩

/-- Claim C4, witness: two runs over the same concrete content. -/
theorem claim_C4_witness :
    parse_text_log (lc "Model: a\nCategory: b") =
      parse_text_log (lc "Model: a\nCategory: b") :=
  (claim_C4 (lc "Model: a\nCategory: b") (lc "Model: a\nCategory: b") rfl).1

/-! ## Claim C5 — failing temperature lines -/

/-- Claim C5, counterexample: a block containing a `Temperature` line
whose value does not parse (`zzz`) nevertheless carries a `temperature`
field, because an earlier `Temperature` line parsed and the failing
line merely leaves the dict entry in place (lines 54-58). -/
theorem claim_C5_cex :
    isPyFloat (lc "zzz") = false ∧
    parse_text_log (lc "Model: a\nCategory: b\nTemperature: 1.0\nTemperature: zzz") =
      some [{ initTest with
                model := some (lc "a"), category := some (lc "b"),
                temperature := some (lc "1.0") }] := by
  refine ⟨by decide, by decide⟩

/-- Claim C5 (amended): a `Temperature` line whose value fails to
parse is ignored entirely — it neither assigns nor clears the
`temperature` field (so the field is absent unless some other
`Temperature` line of the block parses), it is never defaulted to
zero, and the required-key gate never looks at `temperature`, so such
a line cannot cause record exclusion. -/
theorem claim_C5_amended (t u : TestRecord) (line : List Char)
    (h1 : mentionsModel (pyStrip line) = false)
    (h2 : mentionsCategory (pyStrip line) = false)
    (h3 : mentionsLanguage (pyStrip line) = false)
    (h4 : mentionsTemperature (pyStrip line) = true)
    (h5 : isPyFloat (fieldValue (pyStrip line)) = false) :
    parseLine t line = t ∧
    hasRequiredKeys u = hasRequiredKeys { u with temperature := none } := by
  refine ⟨?_, rfl⟩
  have h5' : isPyFloat (pyStrip (afterFirstColon (pyStrip line))) = false := h5
  simp [parseLine, fieldValue, h1, h2, h3, h4, h5']

/-- Claim C5, witness: the failing line `Temperature: zzz` leaves the
record unchanged. -/
theorem claim_C5_witness :
    parseLine initTest (lc "Temperature: zzz") = initTest ∧
    hasRequiredKeys initTest = hasRequiredKeys { initTest with temperature := none } :=
  claim_C5_amended initTest initTest (lc "Temperature: zzz")
    (by decide) (by decide) (by decide) (by decide) (by decide)

/-! ## Claim C6 — JSON shapes -/

/-- Claim C6, counterexample: a bare JSON scalar such as `42` does not
fail — line 92 wraps any non-list value in a one-element list, so the
scalar becomes exactly one raw record and the run proceeds. -/
theorem claim_C6_cex :
    jsonToRecords (JValue.jNum 42) = [JValue.jNum 42] ∧
    (jsonToRecords (JValue.jNum 42)).length = 1 :=
  ⟨rfl, rfl⟩

/-- Claim C6 (amended): a JSON sequence yields one raw record per
element, and any non-sequence value — a single mapping or a scalar —
is wrapped in a singleton list and becomes exactly one raw record; no
shape of a successfully parsed JSON value is rejected. -/
theorem claim_C6_amended (v : JValue) (xs : List JValue) :
    jsonToRecords (JValue.jArr xs) = xs ∧
    (isJArr v = false → jsonToRecords v = [v]) := by
  refine ⟨rfl, ?_⟩
  intro h
  cases v
  case jArr es => simp [isJArr] at h
  all_goals rfl

/-- Claim C6, witness: a scalar and a mapping each become one record;
a two-element sequence becomes its elements. -/
theorem claim_C6_witness :
    jsonToRecords (JValue.jArr [JValue.jNum 1, JValue.jNum 2]) =
      [JValue.jNum 1, JValue.jNum 2] ∧
    (isJArr (JValue.jObj []) = false → jsonToRecords (JValue.jObj []) = [JValue.jObj []]) :=
  claim_C6_amended (JValue.jObj []) [JValue.jNum 1, JValue.jNum 2]

/-! ## Claim C7 — block structure of the text log -/

/-- Claim C7, counterexample: a blank line containing a single space
does not separate blocks — the split is on the exact substring of two
newlines (line 41), so the two halves merge into one block and one
record (the later lines overwrite the earlier fields); likewise a CRLF
blank line does not split. -/
theorem claim_C7_cex :
    parse_text_log (lc "Model: a\nCategory: b\n \nModel: c\nCategory: d") =
      some [{ initTest with model := some (lc "c"), category := some (lc "d") }] ∧
    blocksOf (lc "A\r\n\r\nB") = [lc "A\r\n\r\nB"] := by
  refine ⟨by decide, by decide⟩

/-- Claim C7 (amended): blocks are separated by occurrences of two
consecutive newline characters, not by general blank lines: if the two
pieces contain no two-newline run, the left piece does not end in a
newline, and both pieces are nonempty after stripping, then the file
made of the two pieces around an explicit `\n\n` separator parses into
exactly those two stripped blocks; leading and trailing whitespace of
each block is stripped; and every block yields exactly one raw
record. -/
theorem claim_C7_amended (b1 b2 c : List Char)
    (h1 : containsSeq ['\n', '\n'] b1 = false)
    (h2 : containsSeq ['\n', '\n'] b2 = false)
    (h3 : b1.getLast? ≠ some '\n')
    (h4 : pyStrip b1 ≠ [])
    (h5 : pyStrip b2 ≠ []) :
    blocksOf (b1 ++ ['\n', '\n'] ++ b2) = [pyStrip b1, pyStrip b2] ∧
    (rawRecords c).length = (blocksOf c).length := by
  constructor
  · have e1 : b1 ++ ['\n', '\n'] ++ b2 = b1 ++ '\n' :: '\n' :: b2 := by simp
    have hb1 : (pyStrip b1).isEmpty = false := by
      cases hps : pyStrip b1
      · exact absurd hps h4
      · rfl
    have hb2 : (pyStrip b2).isEmpty = false := by
      cases hps : pyStrip b2
      · exact absurd hps h5
      · rfl
    rw [e1, blocksOf, splitBlocks_append b1 b2 h1 h3, splitBlocks_no_sep b2 h2]
    simp [List.filter, hb1, hb2]
  · simp [rawRecords]

/-- Claim C7, witness: two concrete single-line blocks around an
explicit two-newline separator. -/
theorem claim_C7_witness :
    blocksOf (lc "Model: a" ++ ['\n', '\n'] ++ lc "Category: b") =
      [pyStrip (lc "Model: a"), pyStrip (lc "Category: b")] ∧
    (rawRecords (lc "x")).length = (blocksOf (lc "x")).length :=
  claim_C7_amended (lc "Model: a") (lc "Category: b") (lc "x")
    (by decide) (by decide) (by decide) (by decide) (by decide)

/-! ## Claim C8 — the NoValidRecords condition -/

/-- Claim C8: when zero blocks yield a record with both `model` and
`category`, `parse_text_log` returns `None` and the caller's text
branch raises the terminal failed-to-parse error instead of proceeding
with an empty canonical table (lines 63-69 and 93-97). -/
theorem claim_C8 (content : List Char) (h : keptRecords content = []) :
    loadTextFile content = Except.error "Failed to parse text file" := by
  simp [loadTextFile, parse_text_log, h]

/-- Claim C8, witness: content with no recognized fields yields the
terminal error. -/
theorem claim_C8_witness :
    loadTextFile (lc "no labels at all") = Except.error "Failed to parse text file" :=
  claim_C8 (lc "no labels at all") (by decide)

/-! ## Claim C9 — totality of the parser interface -/

/-- Claim C9: the embedded `parse_text_log` is a total function of the
file content: for every input it returns either the table of kept
records or `None`, and `None` occurs exactly when no block yields a
record with both required keys (the source's catch-all `except` routes
every internal error to the same `None` branch). -/
theorem claim_C9 (content : List Char) :
    (parse_text_log content = none ↔ keptRecords content = []) ∧
    (parse_text_log content = none ∨
      parse_text_log content = some (keptRecords content)) := by
  rcases hk : keptRecords content with _ | ⟨r, rs⟩
  · exact ⟨by simp [parse_text_log, hk], Or.inl (by simp [parse_text_log, hk])⟩
  · exact ⟨by simp [parse_text_log, hk], Or.inr (by simp [parse_text_log, hk])⟩

/-! ## Claim C10 — per-line field precedence -/

/-- Claim C10, counterexample: the line `Temperature: x Success: yes`
contains two recognized labels with colons, yet zero fields are
assigned — the temperature branch wins by precedence and its value
(everything after the line's first colon) fails to parse as a float,
so the `except: pass` assigns nothing. -/
theorem claim_C10_cex :
    mentionsTemperature (pyStrip (lc "Temperature: x Success: yes")) = true ∧
    mentionsSuccess (pyStrip (lc "Temperature: x Success: yes")) = true ∧
    parseLine initTest (lc "Temperature: x Success: yes") = initTest := by
  refine ⟨by decide, by decide, by decide⟩

/-- Claim C10 (amended): at most one field is assigned per line: the
first matching label in the order model, category, language,
temperature, success wins and the other labels on the line are
ignored; the winning branch assigns its field — except that the
temperature branch assigns nothing when its value fails to parse as a
float — and a line matching no label leaves the record unchanged. -/
theorem claim_C10_amended (t : TestRecord) (line : List Char) :
    (mentionsModel (pyStrip line) = true →
      parseLine t line = { t with model := some (fieldValue (pyStrip line)) }) ∧
    (mentionsModel (pyStrip line) = false → mentionsCategory (pyStrip line) = true →
      parseLine t line = { t with category := some (fieldValue (pyStrip line)) }) ∧
    (mentionsModel (pyStrip line) = false → mentionsCategory (pyStrip line) = false →
      mentionsLanguage (pyStrip line) = true →
      parseLine t line = { t with language := some (fieldValue (pyStrip line)) }) ∧
    (mentionsModel (pyStrip line) = false → mentionsCategory (pyStrip line) = false →
      mentionsLanguage (pyStrip line) = false → mentionsTemperature (pyStrip line) = true →
      isPyFloat (fieldValue (pyStrip line)) = false →
      parseLine t line = t) ∧
    (mentionsModel (pyStrip line) = false → mentionsCategory (pyStrip line) = false →
      mentionsLanguage (pyStrip line) = false → mentionsTemperature (pyStrip line) = true →
      isPyFloat (fieldValue (pyStrip line)) = true →
      parseLine t line = { t with temperature := some (fieldValue (pyStrip line)) }) ∧
    (mentionsModel (pyStrip line) = false → mentionsCategory (pyStrip line) = false →
      mentionsLanguage (pyStrip line) = false → mentionsTemperature (pyStrip line) = false →
      mentionsSuccess (pyStrip line) = true →
      parseLine t line =
        { t with success := some (if isTruthy (pyLower (fieldValue (pyStrip line))) then 1 else 0) }) ∧
    (mentionsModel (pyStrip line) = false → mentionsCategory (pyStrip line) = false →
      mentionsLanguage (pyStrip line) = false → mentionsTemperature (pyStrip line) = false →
      mentionsSuccess (pyStrip line) = false →
      parseLine t line = t) := by
  refine ⟨?_, ?_, ?_, ?_, ?_, ?_, ?_⟩
  · intro h1
    simp [parseLine, fieldValue, h1]
  · intro h1 h2
    simp [parseLine, fieldValue, h1, h2]
  · intro h1 h2 h3
    simp [parseLine, fieldValue, h1, h2, h3]
  · intro h1 h2 h3 h4 h5
    have h5' : isPyFloat (pyStrip (afterFirstColon (pyStrip line))) = false := h5
    simp [parseLine, fieldValue, h1, h2, h3, h4, h5']
  · intro h1 h2 h3 h4 h5
    have h5' : isPyFloat (pyStrip (afterFirstColon (pyStrip line))) = true := h5
    simp [parseLine, fieldValue, h1, h2, h3, h4, h5']
  · intro h1 h2 h3 h4 h5
    simp [parseLine, fieldValue, h1, h2, h3, h4, h5]
  · intro h1 h2 h3 h4 h5
    simp [parseLine, fieldValue, h1, h2, h3, h4, h5]

/-- Claim C10, witness: a line holding both a model and a category
label assigns only `model`; a lone failing temperature line assigns
nothing. -/
theorem claim_C10_witness :
    parseLine initTest (lc "Model: m Category: c") =
      { initTest with model := some (fieldValue (pyStrip (lc "Model: m Category: c"))) } ∧
    parseLine initTest (lc "Temperature: abc") = initTest :=
  ⟨(claim_C10_amended initTest (lc "Model: m Category: c")).1 (by decide),
   (claim_C10_amended initTest (lc "Temperature: abc")).2.2.2.1
     (by decide) (by decide) (by decide) (by decide) (by decide)⟩

end WebApp
